import Mathlib

/-!
# Verification of the TradeLocker order-lifecycle and position-netting core

Shallow embedding of `src/tradelocker/tradelocker_api.py` (class `TLAPI`):
the functions `close_position`, `_place_close_position_order`,
`_perform_order_netting` and `create_order`, together with the class
constants they use.

Modelling conventions:
* Python `float` quantities are modelled as exact rationals (`ℚ`);
  `round(x, n)` is modelled as exact decimal round-half-to-even.
* `int64` dataframe columns are modelled as `ℤ`; the client's
  `_apply_typing` replaces null values by `0` (`fillna(0)`), so a null
  `stopLossId`/`takeProfitId`/`positionId` is the integer `0` here and
  Python truthiness `not x` on such a column is `x = 0`.
* The Broker API Gateway is modelled by a response function
  `gw : ℤ → ℚ → Bool` giving the success flag that a
  DELETE-position-with-quantity request returns; each such request is
  also recorded in an emitted trace of `CloseOp`s.
* Python exceptions are modelled by `Except PyErr`; every function
  returns its `Except` result *paired with* the trace of close
  operations it issued before returning or raising.
-/

namespace TradeLocker

/-- `TLAPI._EPS = 0.00001`. -/
def EPS : ℚ := 1 / 100000

/-- `TLAPI._MIN_LOT_SIZE = 0.01`. -/
def MIN_LOT_SIZE : ℚ := 1 / 100

/-- `TLAPI._MAX_STRATEGY_ID_LEN = 32`. -/
def MAX_STRATEGY_ID_LEN : ℕ := 32

/-- `TLAPI._SIZE_PRECISION = 6`. -/
def SIZE_PRECISION : ℕ := 6

/-- `SideType = Literal["buy", "sell"]` (types.py). -/
inductive Side
  | buy
  | sell
deriving DecidableEq

/-- `OrderTypeType = Literal["limit", "market", "stop"]` (types.py). -/
inductive OrderType
  | limit
  | market
  | stop
deriving DecidableEq

/-- `ValidityType = Literal["GTC", "IOC"]` (types.py). -/
inductive Validity
  | GTC
  | IOC
deriving DecidableEq

/-- `StopLossType = Literal["absolute", "offset", "trailingOffset"]` (types.py). -/
inductive StopLossKind
  | absolute
  | offset
  | trailingOffset
deriving DecidableEq

/-- `TakeProfitType = Literal["absolute", "offset"]` (types.py). -/
inductive TakeProfitKind
  | absolute
  | offset
deriving DecidableEq

/-- One row of the orders-history dataframe (`OrdersColumns`, types.py),
restricted to the columns `close_position` reads: `id`, `positionId`,
`qty`, `side`, `status`. `status` is a plain string column. -/
structure Order where
  id : ℤ
  positionId : ℤ
  qty : ℚ
  side : Side
  status : String
deriving DecidableEq

/-- One row of the positions dataframe (`PositionsColumns`, types.py),
restricted to the columns `_perform_order_netting` reads: `id`,
`tradableInstrumentId`, `side`, `qty`, `stopLossId`, `takeProfitId`.
A null `stopLossId`/`takeProfitId` arrives as `0` (`fillna(0)`). -/
structure Position where
  id : ℤ
  tradableInstrumentId : ℤ
  side : Side
  qty : ℚ
  stopLossId : ℤ
  takeProfitId : ℤ
deriving DecidableEq

/-- One close request issued against the Gateway: a DELETE on position
`posId` with body `qty` (the trace element recorded by
`_place_close_position_order`). -/
structure CloseOp where
  posId : ℤ
  qty : ℚ
deriving DecidableEq

/-- The Python exceptions the embedded code can raise. -/
inductive PyErr
  | valueError
  | typeError
  | indexError
  | tlapiException (msg : String)
deriving DecidableEq

/-- Python truthiness of an `Optional[float]`: `None` and `0.0` are
falsy, every other float is truthy. -/
def pyTruthyQ (x : Option ℚ) : Bool :=
  match x with
  | none => false
  | some q => q ≠ 0

/-- Python truthiness of an `Optional[str]`: `None` and `""` are falsy. -/
def pyTruthyStr (x : Option String) : Bool :=
  match x with
  | none => false
  | some s => s ≠ ""

/-- Round-half-to-even of a rational to an integer, the rounding mode of
Python's built-in `round`. -/
def roundHalfToEven (x : ℚ) : ℤ :=
  let n : ℤ := ⌊x⌋
  let frac : ℚ := x - n
  if frac < 1 / 2 then n
  else if 1 / 2 < frac then n + 1
  else if n % 2 = 0 then n else n + 1

/-- Python `round(x, ndigits)` on a quantity, modelled as exact decimal
round-half-to-even at `ndigits` decimal places. -/
def pyRound (x : ℚ) (ndigits : ℕ) : ℚ :=
  (roundHalfToEven (x * 10 ^ ndigits) : ℚ) / 10 ^ ndigits

/-- Python `sep.join(xs)` applied to a list of *integers*, as in
`",".join(list(position_sizes.keys()))` where the keys are `int`s:
`str.join` requires every element to be a `str`, so it returns the empty
string on an empty list and raises `TypeError` as soon as it meets the
first element, which is an `int`. -/
def strJoinInts ( _sep : String) : List ℤ → Except PyErr String
  | [] => .ok ""
  | _ :: _ => .error .typeError

/-- One step of building `position_sizes: DefaultDict[int, float]`:
add `q` to the entry of key `pid`, appending a fresh entry at the end
when the key is new (a Python dict preserves insertion order). -/
def addSigned (pid : ℤ) (q : ℚ) : List (ℤ × ℚ) → List (ℤ × ℚ)
  | [] => [(pid, q)]
  | (k, v) :: rest =>
      if k = pid then (k, v + q) :: rest else (k, v) :: addSigned pid q rest

/-- `position_sizes` as built by `close_position` (lines 811-818): fold
the filled matching orders in dataframe order, adding `+qty` for a buy
leg and `-qty` for a sell leg to the order's `positionId` entry, then
replace every accumulated value by its absolute value. -/
def position_sizes (filled : List Order) : List (ℤ × ℚ) :=
  (filled.foldl
      (fun acc o => addSigned o.positionId (if o.side = .sell then -o.qty else o.qty) acc)
      []).map (fun kv => (kv.1, |kv.2|))

/-- `TLAPI._place_close_position_order` (lines 744-752): DELETE the
position resource with the given quantity; the boolean is the Gateway's
success flag, and the request itself is recorded in the trace. -/
def _place_close_position_order (gw : ℤ → ℚ → Bool) (position_id : ℤ) (quantity : ℚ) :
    Bool × List CloseOp :=
  (gw position_id quantity, [⟨position_id, quantity⟩])

/-- `TLAPI.close_position` (lines 756-847). Arguments default to `0` in
the source; here they are always passed explicitly. Returns the
`Except`-wrapped boolean result together with the trace of close
operations issued. -/
def close_position (gw : ℤ → ℚ → Bool) (all_orders : List Order)
    (order_id : ℤ) (position_id : ℤ) (close_quantity : ℚ) :
    Except PyErr Bool × List CloseOp :=
  if order_id = 0 ∧ position_id = 0 then
    -- raise ValueError("Either order_id or position_id must be provided!")
    (.error .valueError, [])
  else if order_id ≠ 0 ∧ position_id ≠ 0 then
    -- raise ValueError("Both order_id and position_id provided!")
    (.error .valueError, [])
  else if position_id ≠ 0 then
    let r := _place_close_position_order gw position_id close_quantity
    (.ok r.1, r.2)
  else
    -- all_orders = get_all_orders(history=True); filter on the id column
    -- (the positionId branch of the selection is dead code here, since
    -- position_id ≠ 0 has already returned above; it is kept verbatim)
    let matching_orders :=
      if order_id ≠ 0 then all_orders.filter (fun o => o.id = order_id)
      else all_orders.filter (fun o => o.positionId = position_id)
    -- the Rejected-status scan only logs a warning; no effect on state
    let filled := matching_orders.filter (fun o => o.status = "Filled")
    if filled.length = 0 then
      -- log.error("No matching position found ..."); return False
      (.ok false, [])
    else
      let sizes := position_sizes filled
      if 1 < sizes.length then
        -- close every resolved position at its computed size ...
        let ops := sizes.flatMap (fun kv => (_place_close_position_order gw kv.1 kv.2).2)
        -- ... then build the CRITICAL ERROR message: the id join is
        -- applied to int keys, so it raises before TLAPIException is made
        match strJoinInts "," (sizes.map Prod.fst) with
        | .error e => (.error e, ops)
        | .ok ids =>
            (.error (.tlapiException
              ("CRITICAL ERROR: found multiple positions (" ++ ids ++ ")")), ops)
      else
        match sizes with
        | [] => (.error .indexError, [])  -- list(...)[0] on empty: unreachable
        | (pid, sz) :: _ =>
            let quantity_to_close := pyRound sz SIZE_PRECISION
            let quantity_to_close :=
              if close_quantity ≠ 0 then min quantity_to_close close_quantity
              else quantity_to_close
            if quantity_to_close < MIN_LOT_SIZE then
              -- log.error("Quantity to close ... less than minimum lot size")
              (.ok false, [])
            else
              let r := _place_close_position_order gw pid quantity_to_close
              (.ok r.1, r.2)

/-- The `for _, position in opposite_positions.iterrows()` loop of
`_perform_order_netting` (lines 1406-1421), over the already-sorted
rows, carrying `total_netted`.  A position with a truthy (non-zero)
`stopLossId` or `takeProfitId` is skipped.  Each close goes through
`close_position(position_id=..., close_quantity=...)`; its boolean
result is ignored, but an exception from it propagates, ending the
loop with the trace issued so far.  After each close the loop stops
once `|total_netted - quantity| < EPS`. -/
def nettingLoop (gw : ℤ → ℚ → Bool) (quantity : ℚ) :
    List Position → ℚ → Except PyErr ℚ × List CloseOp
  | [], total_netted => (.ok total_netted, [])
  | p :: rest, total_netted =>
    if p.stopLossId = 0 ∧ p.takeProfitId = 0 then
      let quantity_to_close := min p.qty (quantity - total_netted)
      match close_position gw [] 0 p.id quantity_to_close with
      | (.error e, ops) => (.error e, ops)
      | (.ok _, ops) =>
          let total_netted := total_netted + quantity_to_close
          if |total_netted - quantity| < EPS then (.ok total_netted, ops)
          else
            let r := nettingLoop gw quantity rest total_netted
            (r.1, ops ++ r.2)
    else nettingLoop gw quantity rest total_netted

/-- `TLAPI._perform_order_netting` (lines 1376-1423): filter the open
positions to the requested instrument and the side opposite to the new
order, sort them by ascending `qty` (`sort_values(by="qty")`, modelled
by a stable insertion sort), then run the netting loop from
`total_netted = 0`. -/
def _perform_order_netting (gw : ℤ → ℚ → Bool) (all_positions : List Position)
    (instrument_id : ℤ) (new_position_side : Side) (quantity : ℚ) :
    Except PyErr ℚ × List CloseOp :=
  let opposite_side : Side := if new_position_side = .buy then .sell else .buy
  let opposite_positions := all_positions.filter
    (fun p => p.tradableInstrumentId = instrument_id ∧ p.side = opposite_side)
  let sorted := opposite_positions.insertionSort (fun a b => a.qty ≤ b.qty)
  nettingLoop gw quantity sorted 0

/-- The request body assembled by `create_order` (lines 1519-1533),
restricted to the fields with behaviour of their own (`routeId` and the
serialization to strings are plumbing). -/
structure RequestBody where
  price : Option ℚ
  qty : ℚ
  side : Side
  validity : Validity
  type_ : OrderType
  takeProfit : Option ℚ
  takeProfitType : Option TakeProfitKind
  stopLoss : Option ℚ
  stopLossType : Option StopLossKind
  stopPrice : Option ℚ
  strategyId : Option String
deriving DecidableEq

/-- The tail of `create_order` after the validity rules have resolved
`validity` (lines 1493-1558): the stop-loss/take-profit/stop-price/
strategy-id validations, request-body assembly, and the
position-netting step. -/
def create_order_after_validity (gw : ℤ → ℚ → Bool) (all_positions : List Position)
    (instrument_id : ℤ) (quantity : ℚ) (side : Side)
    (price : Option ℚ) (type_ : OrderType) (validity : Validity)
    (position_netting : Bool)
    (take_profit : Option ℚ) (take_profit_type : Option TakeProfitKind)
    (stop_loss : Option ℚ) (stop_loss_type : Option StopLossKind)
    (stop_price : Option ℚ) (strategy_id : Option String)
    ( _ignore_len_check : Bool) :
    Except PyErr (Option RequestBody) × List CloseOp :=
  if pyTruthyQ stop_loss ∧ stop_loss_type = none then
    (.error .valueError, [])  -- "Stop loss value specified, but no stop_loss_type"
  else if pyTruthyQ take_profit ∧ take_profit_type = none then
    (.error .valueError, [])  -- "Take profit value specified, but no take_profit_type"
  else if type_ = .stop ∧ stop_price = none then
    (.error .valueError, [])  -- "Stop orders must have a stop price set"
  else if ¬ _ignore_len_check ∧ pyTruthyStr strategy_id ∧
      MAX_STRATEGY_ID_LEN < (strategy_id.getD "").length then
    (.error .valueError, [])  -- "Strategy ID ... is too long"
  else
    let request_body : RequestBody :=
      ⟨price, quantity, side, validity, type_, take_profit, take_profit_type,
        stop_loss, stop_loss_type, stop_price, strategy_id⟩
    if position_netting then
      if type_ = .market then
        match _perform_order_netting gw all_positions instrument_id side quantity with
        | (.error e, ops) => (.error e, ops)
        | (.ok total_netted, ops) =>
            -- qty := str(float(qty) - total_netted)
            let qty := quantity - total_netted
            if qty < MIN_LOT_SIZE then
              -- "Not placing a new order after closing sufficient opposite orders"
              (.ok none, ops)
            else (.ok (some { request_body with qty := qty }), ops)
      else
        -- "Order netting is only supported for market orders."
        (.error .valueError, [])
    else (.ok (some request_body), [])

/-- `TLAPI.create_order` (lines 1428-1568) up to the point where the
order is POSTed: validation, request-body assembly and the
position-netting step.  `.ok (some body)` means the order is submitted
with `body`; `.ok none` means no order is placed and `None` is returned
(netting consumed the whole quantity); `.error` is a raised exception.
The trace lists the close operations issued by the netting step. -/
def create_order (gw : ℤ → ℚ → Bool) (all_positions : List Position)
    (instrument_id : ℤ) (quantity : ℚ) (side : Side)
    (price : Option ℚ) (type_ : OrderType) (validity : Option Validity)
    (position_netting : Bool)
    (take_profit : Option ℚ) (take_profit_type : Option TakeProfitKind)
    (stop_loss : Option ℚ) (stop_loss_type : Option StopLossKind)
    (stop_price : Option ℚ) (strategy_id : Option String)
    ( _ignore_len_check : Bool) :
    Except PyErr (Option RequestBody) × List CloseOp :=
  -- market order with a truthy price: drop the price with a warning
  let price := if type_ = .market ∧ pyTruthyQ price then none else price
  -- validity rules (an Optional literal string: None falsy, others truthy)
  match type_, validity with
  | .market, some v =>
    if v ≠ .IOC then (.error .valueError, [])  -- "Market orders must use IOC"
    else create_order_after_validity gw all_positions instrument_id quantity side
      price type_ .IOC position_netting take_profit take_profit_type
      stop_loss stop_loss_type stop_price strategy_id _ignore_len_check
  | .market, none =>
    create_order_after_validity gw all_positions instrument_id quantity side
      price type_ .IOC position_netting take_profit take_profit_type
      stop_loss stop_loss_type stop_price strategy_id _ignore_len_check
  | _, none => (.error .valueError, [])  -- "Validity not specified for a non-market order"
  | _, some v =>
    if v ≠ .GTC then (.error .valueError, [])  -- "... orders must use GTC"
    else create_order_after_validity gw all_positions instrument_id quantity side
      price type_ v position_netting take_profit take_profit_type
      stop_loss stop_loss_type stop_price strategy_id _ignore_len_check

/-! ## Helper lemmas -/

/-- A Gateway that reports success for every close request. -/
def gwAlwaysOk : ℤ → ℚ → Bool := fun _ _ => true

/-- `close_position` addressed by a non-zero `position_id` submits one
close for exactly the supplied quantity and returns the Gateway flag. -/
theorem close_position_pid_spec (gw : ℤ → ℚ → Bool) (all_orders : List Order)
    (pid : ℤ) (q : ℚ) (h : pid ≠ 0) :
    close_position gw all_orders 0 pid q = (.ok (gw pid q), [⟨pid, q⟩]) := by
  simp [close_position, _place_close_position_order, h]

/-- `close_position` with both ids zero raises `ValueError` at once. -/
theorem close_position_pid_zero (gw : ℤ → ℚ → Bool) (all_orders : List Order) (q : ℚ) :
    close_position gw all_orders 0 0 q = (.error .valueError, []) := by
  simp [close_position]

/-! ## C7: id preconditions of close_position -/

/-- C7: `close_position` called with neither `orderId` nor `positionId`
(both zero) raises `ValueError` (the code's `ValidationError`), and called
with both non-zero likewise raises `ValueError` (strict policy); in both
cases no close operation is issued and the order ledger is never consulted
(the result is the same for every ledger). -/
theorem close_position_id_validation (gw : ℤ → ℚ → Bool) (all_orders : List Order)
    (order_id position_id : ℤ) (close_quantity : ℚ)
    (h : (order_id = 0 ∧ position_id = 0) ∨ (order_id ≠ 0 ∧ position_id ≠ 0)) :
    close_position gw all_orders order_id position_id close_quantity
      = (.error .valueError, []) := by
  rcases h with ⟨h1, h2⟩ | ⟨h1, h2⟩
  · simp [close_position, h1, h2]
  · simp [close_position, h1, h2]

/-- Witness for C7 at concrete inputs `(0, 0)` and `(5, 6)`. -/
theorem close_position_id_validation_witness :
    close_position gwAlwaysOk [] 0 0 0 = (.error .valueError, []) ∧
    close_position gwAlwaysOk [] 5 6 0 = (.error .valueError, []) :=
  ⟨close_position_id_validation gwAlwaysOk [] 0 0 0 (Or.inl ⟨rfl, rfl⟩),
   close_position_id_validation gwAlwaysOk [] 5 6 0
     (Or.inr ⟨by norm_num, by norm_num⟩)⟩

/-! ## C9: market orders require IOC validity -/

/-- C9: `create_order` with `type=market` and a non-null explicit validity
different from `IOC` raises `ValueError` for every instrument, side,
quantity and remaining argument, and no order is placed and no close
operation is issued. -/
theorem create_order_market_validity_rejected (gw : ℤ → ℚ → Bool)
    (all_positions : List Position) (instrument_id : ℤ) (quantity : ℚ) (side : Side)
    (price : Option ℚ) (v : Validity) (position_netting : Bool)
    (take_profit : Option ℚ) (take_profit_type : Option TakeProfitKind)
    (stop_loss : Option ℚ) (stop_loss_type : Option StopLossKind)
    (stop_price : Option ℚ) (strategy_id : Option String) (ign : Bool)
    (h : v ≠ Validity.IOC) :
    create_order gw all_positions instrument_id quantity side price .market (some v)
      position_netting take_profit take_profit_type stop_loss stop_loss_type
      stop_price strategy_id ign = (.error .valueError, []) := by
  simp [create_order, h]

/-- Witness for C9 at `validity = GTC` on a concrete market order. -/
theorem create_order_market_validity_rejected_witness :
    Validity.GTC ≠ Validity.IOC ∧
    create_order gwAlwaysOk [] 1 (1/10) .buy none .market (some .GTC) false
      none none none none none none false = (.error .valueError, []) :=
  ⟨by decide,
   create_order_market_validity_rejected gwAlwaysOk [] 1 (1/10) .buy none .GTC false
     none none none none none none false (by decide)⟩

/-! ## C6: close_position by orderId with no filled match -/

/-- C6 counterexample: with an order ledger in which no `Filled` order
matches `order_id = 7`, `close_position` does *not* raise any error: it
returns the boolean `false` (and submits nothing).  This refutes the
claim that the not-found outcome of this single-target lookup is raised
as an error. -/
theorem close_position_not_found_returns_false :
    close_position gwAlwaysOk [] 7 0 0 = (.ok false, []) := by
  norm_num +decide [close_position, position_sizes, gwAlwaysOk]

/-- C6 amended: when no matching order with status `Filled` exists for the
requested `order_id`, `close_position` logs and returns `false` — no
exception is raised — and no close operation is submitted. -/
theorem close_position_no_filled_returns_false (gw : ℤ → ℚ → Bool)
    (all_orders : List Order) (order_id : ℤ) (close_quantity : ℚ)
    (h0 : order_id ≠ 0)
    (h : (all_orders.filter (fun o => o.id = order_id)).filter
        (fun o => o.status = "Filled") = []) :
    close_position gw all_orders order_id 0 close_quantity = (.ok false, []) := by
  simp [close_position, h0, h]

/-- Witness for the amended C6: an order ledger holding only a Cancelled
order with the requested id. -/
theorem close_position_no_filled_returns_false_witness :
    close_position gwAlwaysOk [⟨7, 1, 1/2, .buy, "Cancelled"⟩] 7 0 0 = (.ok false, []) :=
  close_position_no_filled_returns_false gwAlwaysOk [⟨7, 1, 1/2, .buy, "Cancelled"⟩]
    7 0 (by norm_num) (by norm_num +decide [List.filter])

/-! ## C4: close_position addressed directly by positionId -/

/-- C4 counterexample: addressed by `positionId` with a clamped close
amount `0.005` strictly below the minimum lot size `0.01`, the close is
*not* refused: the dust order is submitted to the Gateway as-is and its
success flag is returned.  This refutes the claim that the
minimum-lot-size check still applies on the `positionId` path. -/
theorem close_position_by_pid_dust_submitted :
    (1:ℚ)/200 < MIN_LOT_SIZE ∧
    close_position gwAlwaysOk [] 0 1 (1/200) = (.ok true, [⟨1, 1/200⟩]) := by
  constructor
  · norm_num [MIN_LOT_SIZE]
  · norm_num +decide [close_position, _place_close_position_order, gwAlwaysOk]

/-- C4 amended: addressed directly by `positionId`, only the submission
step (g) runs: `close_position` issues exactly one close for the supplied
`close_quantity` unchanged (0 meaning full close) and returns the Gateway
flag; no history lookup, rounding, clamping or minimum-lot-size check is
performed, so a below-minimum amount is submitted rather than refused. -/
theorem close_position_by_pid_direct_spec (gw : ℤ → ℚ → Bool)
    (all_orders : List Order) (position_id : ℤ) (close_quantity : ℚ)
    (h : position_id ≠ 0) :
    close_position gw all_orders 0 position_id close_quantity
      = (.ok (gw position_id close_quantity), [⟨position_id, close_quantity⟩]) :=
  close_position_pid_spec gw all_orders position_id close_quantity h

/-- Witness for the amended C4 at `position_id = 9`, `close_quantity = 1/4`. -/
theorem close_position_by_pid_direct_spec_witness :
    close_position gwAlwaysOk [] 0 9 (1/4) = (.ok true, [⟨9, 1/4⟩]) :=
  close_position_by_pid_direct_spec gwAlwaysOk [] 9 (1/4) (by norm_num)

/-! ## C1: multiple positions for one order id -/

/-- C1: when the filled orders matching `order_id = 7` resolve to the two
distinct position groups `1` and `2`, `close_position` first issues a
closing operation for both positions at their computed sizes, but then
the construction of the critical error message applies
`",".join(list(position_sizes.keys()))` to the *integer* keys, which
raises `TypeError` before the intended `TLAPIException` naming the
position ids can be built.  A hard error still propagates, but it is a
`TypeError`, not the reconciliation error naming every affected id. -/
theorem close_position_multiple_positions_bug :
    close_position gwAlwaysOk
      [⟨7, 1, 1/2, .buy, "Filled"⟩, ⟨7, 2, 3/10, .buy, "Filled"⟩] 7 0 0
      = (.error .typeError, [⟨1, 1/2⟩, ⟨2, 3/10⟩]) := by
  norm_num +decide [close_position, _place_close_position_order, position_sizes,
    addSigned, strJoinInts, gwAlwaysOk]

/-! ## C3: close_position by orderId resolving to one position -/

/-- C3 counterexample: a single filled order of quantity `0.005` resolves
to exactly one position of size `0.005`, yet *no* closing operation is
issued: the computed close quantity is below the minimum lot size, so
`close_position` refuses (returns `false` with an empty trace).  This
refutes the claim that a closing operation is always issued when exactly
one position is resolved. -/
theorem close_position_single_dust_no_close :
    position_sizes ((([⟨7, 1, 1/200, Side.buy, "Filled"⟩] : List Order).filter
        (fun o => o.id = 7)).filter (fun o => o.status = "Filled")) = [(1, 1/200)] ∧
    close_position gwAlwaysOk [⟨7, 1, 1/200, .buy, "Filled"⟩] 7 0 0 = (.ok false, []) := by
  constructor
  · norm_num +decide [position_sizes, addSigned]
  · norm_num +decide [close_position, position_sizes, addSigned, pyRound,
      roundHalfToEven, SIZE_PRECISION, MIN_LOT_SIZE, Int.fract, abs_of_nonneg, gwAlwaysOk]

/-- C3 amended: when the filled matching orders resolve to exactly one
position (via the signed-sum-then-absolute-value reconstruction
`position_sizes`), the close quantity is `round(size, 6)`, clamped to
`min` with a non-zero supplied `closeQuantity`; one closing operation is
issued for that position and quantity provided it is at least the
minimum lot size `0.01`, and otherwise the close is refused with `false`
and no operation is issued. -/
theorem close_position_by_order_single_spec (gw : ℤ → ℚ → Bool)
    (all_orders : List Order) (order_id : ℤ) (close_quantity : ℚ) (pid : ℤ) (sz : ℚ)
    (h0 : order_id ≠ 0)
    (hsz : position_sizes ((all_orders.filter (fun o => o.id = order_id)).filter
        (fun o => o.status = "Filled")) = [(pid, sz)]) :
    close_position gw all_orders order_id 0 close_quantity =
      (let q0 := pyRound sz SIZE_PRECISION
       let q := if close_quantity ≠ 0 then min q0 close_quantity else q0
       if q < MIN_LOT_SIZE then (.ok false, [])
       else (.ok (gw pid q), [⟨pid, q⟩])) := by
  have hne : ((all_orders.filter (fun o => o.id = order_id)).filter
      (fun o => o.status = "Filled")) ≠ [] := by
    intro hnil
    rw [hnil] at hsz
    simp [position_sizes] at hsz
  have hlen : ¬ ((all_orders.filter (fun o => o.id = order_id)).filter
      (fun o => o.status = "Filled")).length = 0 := by
    simpa [List.length_eq_zero] using hne
  have h2 : ¬ (order_id = 0 ∧ (0:ℤ) = 0) := by simp [h0]
  have h3 : ¬ (order_id ≠ 0 ∧ (0:ℤ) ≠ 0) := by simp
  have h4 : ¬ ((0:ℤ) ≠ 0) := by simp
  simp only [close_position, if_neg h2, if_neg h3, if_neg h4, if_pos h0, if_neg hlen,
    hsz, List.length_cons, List.length_nil, Nat.lt_irrefl, if_false,
    _place_close_position_order]
  rw [if_neg (fun hc => h0 hc.1)]

/-- Witness for the amended C3: a single filled buy of `0.5` is closed in
full with one operation. -/
theorem close_position_by_order_single_spec_witness :
    close_position gwAlwaysOk [⟨7, 1, 1/2, .buy, "Filled"⟩] 7 0 0
      = (.ok true, [⟨1, 1/2⟩]) := by
  have h := close_position_by_order_single_spec gwAlwaysOk
    [⟨7, 1, 1/2, .buy, "Filled"⟩] 7 0 1 (1/2) (by norm_num)
    (by norm_num +decide [position_sizes, addSigned])
  rw [h]
  norm_num [pyRound, roundHalfToEven, SIZE_PRECISION, MIN_LOT_SIZE, Int.fract,
    abs_of_nonneg, gwAlwaysOk]

/-! ## Netting loop lemmas -/

/-- A protected position (truthy `stopLossId` or `takeProfitId`) is
skipped by the netting loop. -/
theorem nettingLoop_skip (gw : ℤ → ℚ → Bool) (q : ℚ) (p : Position)
    (rest : List Position) (total : ℚ)
    (hp : ¬ (p.stopLossId = 0 ∧ p.takeProfitId = 0)) :
    nettingLoop gw q (p :: rest) total = nettingLoop gw q rest total := by
  simp [nettingLoop, hp]

/-- One eligible step of the netting loop (unprotected position with a
non-zero id): close `min p.qty (q - total)`, then stop if the netted
total is within `EPS` of the requested quantity, else continue. -/
theorem nettingLoop_step (gw : ℤ → ℚ → Bool) (q : ℚ) (p : Position)
    (rest : List Position) (total : ℚ)
    (h1 : p.stopLossId = 0) (h2 : p.takeProfitId = 0) (hid : p.id ≠ 0) :
    nettingLoop gw q (p :: rest) total =
      if |total + min p.qty (q - total) - q| < EPS then
        (.ok (total + min p.qty (q - total)), [⟨p.id, min p.qty (q - total)⟩])
      else ((nettingLoop gw q rest (total + min p.qty (q - total))).1,
        ⟨p.id, min p.qty (q - total)⟩ ::
          (nettingLoop gw q rest (total + min p.qty (q - total))).2) := by
  have hcp := close_position_pid_spec gw [] p.id (min p.qty (q - total)) hid
  simp [nettingLoop, h1, h2, hcp]

/-- An eligible step whose position id is zero: the inner
`close_position` call raises `ValueError` and the loop stops with an
empty trace (dead in practice, since Gateway position ids are non-zero). -/
theorem nettingLoop_step_zero_id (gw : ℤ → ℚ → Bool) (q : ℚ) (p : Position)
    (rest : List Position) (total : ℚ)
    (h1 : p.stopLossId = 0) (h2 : p.takeProfitId = 0) (hid : p.id = 0) :
    nettingLoop gw q (p :: rest) total = (.error .valueError, []) := by
  have hcp := close_position_pid_zero gw [] (min p.qty (q - total))
  simp [nettingLoop, h1, h2, hid, hcp]

/-- Bookkeeping invariant of the netting loop: on a normal return the
netted total never exceeds the requested quantity, it equals the entry
total plus the sum of the issued close quantities, and every issued
close is addressed to an unprotected position of the scanned list. -/
theorem nettingLoop_ok (gw : ℤ → ℚ → Bool) (q : ℚ) (l : List Position) :
    ∀ (total t : ℚ) (ops : List CloseOp), total ≤ q →
      nettingLoop gw q l total = (.ok t, ops) →
      t ≤ q ∧ t = total + (ops.map CloseOp.qty).sum ∧
        ∀ op ∈ ops, ∃ p ∈ l, p.id = op.posId ∧ p.stopLossId = 0 ∧ p.takeProfitId = 0 := by
  induction l with
  | nil =>
    intro total t ops htot heq
    simp only [nettingLoop, Prod.mk.injEq, Except.ok.injEq] at heq
    obtain ⟨rfl, rfl⟩ := heq
    simp [htot]
  | cons p rest ih =>
    intro total t ops htot heq
    by_cases hp : p.stopLossId = 0 ∧ p.takeProfitId = 0
    · by_cases hid : p.id = 0
      · rw [nettingLoop_step_zero_id gw q p rest total hp.1 hp.2 hid] at heq
        simp at heq
      · rw [nettingLoop_step gw q p rest total hp.1 hp.2 hid] at heq
        have hle : min p.qty (q - total) ≤ q - total := min_le_right _ _
        have h1 : total + min p.qty (q - total) ≤ q := by linarith
        by_cases hb : |total + min p.qty (q - total) - q| < EPS
        · rw [if_pos hb] at heq
          simp only [Prod.mk.injEq, Except.ok.injEq] at heq
          obtain ⟨rfl, rfl⟩ := heq
          refine ⟨h1, by simp, ?_⟩
          intro op hop
          simp only [List.mem_singleton] at hop
          subst hop
          exact ⟨p, List.mem_cons_self p rest, rfl, hp.1, hp.2⟩
        · rw [if_neg hb] at heq
          simp only [Prod.mk.injEq] at heq
          obtain ⟨hfst, hsnd⟩ := heq
          have hr : nettingLoop gw q rest (total + min p.qty (q - total))
              = (.ok t, (nettingLoop gw q rest (total + min p.qty (q - total))).2) := by
            rw [← hfst]
          obtain ⟨ih1, ih2, ih3⟩ := ih (total + min p.qty (q - total)) t _ h1 hr
          refine ⟨ih1, ?_, ?_⟩
          · rw [← hsnd]
            simp only [List.map_cons, List.sum_cons]
            linarith
          · intro op hop
            rw [← hsnd] at hop
            rcases List.mem_cons.mp hop with hop | hop
            · subst hop
              exact ⟨p, List.mem_cons_self p rest, rfl, hp.1, hp.2⟩
            · obtain ⟨p', hp', hrest⟩ := ih3 op hop
              exact ⟨p', List.mem_cons_of_mem p hp', hrest⟩
    · rw [nettingLoop_skip gw q p rest total hp] at heq
      obtain ⟨ih1, ih2, ih3⟩ := ih total t ops htot heq
      refine ⟨ih1, ih2, ?_⟩
      intro op hop
      obtain ⟨p', hp', hrest⟩ := ih3 op hop
      exact ⟨p', List.mem_cons_of_mem p hp', hrest⟩

/-- Positivity invariant of the netting loop: while the remaining
quantity is strictly positive and every scanned position has a strictly
positive `qty`, every issued close has a strictly positive quantity. -/
theorem nettingLoop_pos (gw : ℤ → ℚ → Bool) (q : ℚ) (l : List Position) :
    ∀ (total : ℚ), 0 < q - total → (∀ p ∈ l, 0 < p.qty) →
      ∀ op ∈ (nettingLoop gw q l total).2, 0 < op.qty := by
  induction l with
  | nil =>
    intro total _ _ op hop
    simp [nettingLoop] at hop
  | cons p rest ih =>
    intro total hrem hpos op hop
    by_cases hp : p.stopLossId = 0 ∧ p.takeProfitId = 0
    · by_cases hid : p.id = 0
      · rw [nettingLoop_step_zero_id gw q p rest total hp.1 hp.2 hid] at hop
        simp at hop
      · rw [nettingLoop_step gw q p rest total hp.1 hp.2 hid] at hop
        have htc_pos : 0 < min p.qty (q - total) :=
          lt_min (hpos p (List.mem_cons_self p rest)) hrem
        by_cases hb : |total + min p.qty (q - total) - q| < EPS
        · rw [if_pos hb] at hop
          simp only [List.mem_singleton] at hop
          subst hop
          exact htc_pos
        · rw [if_neg hb] at hop
          rcases List.mem_cons.mp hop with hop | hop
          · subst hop
            exact htc_pos
          · have hle : min p.qty (q - total) ≤ q - total := min_le_right _ _
            have h1 : total + min p.qty (q - total) ≤ q := by linarith
            have habs : |total + min p.qty (q - total) - q|
                = q - (total + min p.qty (q - total)) := by
              rw [abs_of_nonpos (by linarith)]
              ring
            have hEPS : EPS ≤ q - (total + min p.qty (q - total)) := by
              rw [← habs]
              exact not_lt.mp hb
            have h2' : 0 < q - (total + min p.qty (q - total)) :=
              lt_of_lt_of_le (by norm_num [EPS]) hEPS
            exact ih (total + min p.qty (q - total)) h2'
              (fun p' hp' => hpos p' (List.mem_cons_of_mem p hp')) op hop
    · rw [nettingLoop_skip gw q p rest total hp] at hop
      exact ih total hrem (fun p' hp' => hpos p' (List.mem_cons_of_mem p hp')) op hop

/-! ## C2: netting invariants -/

/-- C2: for every run of the netting step that returns normally with
`totalNetted = t` and trace `ops`, assuming a non-negative requested
quantity (the data model declares order quantities positive):
`t ≤ requestedQty`, `t` equals the sum of the `toClose` quantities of
the close operations actually issued, and every issued close addresses
an open position with null (`0`) `stopLossId` and `takeProfitId` — no
protected position is ever in the closed set. -/
theorem netting_invariant_holds (gw : ℤ → ℚ → Bool) (all_positions : List Position)
    (instrument_id : ℤ) (side : Side) (quantity t : ℚ) (ops : List CloseOp)
    (hq : 0 ≤ quantity)
    (h : _perform_order_netting gw all_positions instrument_id side quantity
      = (.ok t, ops)) :
    t ≤ quantity ∧ t = (ops.map CloseOp.qty).sum ∧
      ∀ op ∈ ops, ∃ p ∈ all_positions,
        p.id = op.posId ∧ p.stopLossId = 0 ∧ p.takeProfitId = 0 := by
  simp only [_perform_order_netting] at h
  obtain ⟨h1, h2, h3⟩ := nettingLoop_ok gw quantity _ 0 t ops hq h
  refine ⟨h1, by simpa using h2, ?_⟩
  intro op hop
  obtain ⟨p, hpmem, hrest⟩ := h3 op hop
  have hp1 : p ∈ List.filter
      (fun p => decide (p.tradableInstrumentId = instrument_id ∧
        p.side = if side = Side.buy then Side.sell else Side.buy)) all_positions :=
    (List.perm_insertionSort _ _).mem_iff.mp hpmem
  exact ⟨p, (List.mem_filter.mp hp1).1, hrest⟩

/-- Witness for C2: one opposite position of qty `0.05`, requested `0.03`:
the run returns `t = 0.03` with the single close `(11, 0.03)`. -/
theorem netting_invariant_holds_witness :
    (3:ℚ)/100 ≤ 3/100 ∧
      (3:ℚ)/100 = (([⟨11, 3/100⟩] : List CloseOp).map CloseOp.qty).sum ∧
      ∀ op ∈ ([⟨11, 3/100⟩] : List CloseOp),
        ∃ p ∈ ([⟨11, 42, .sell, 1/20, 0, 0⟩] : List Position),
          p.id = op.posId ∧ p.stopLossId = 0 ∧ p.takeProfitId = 0 :=
  netting_invariant_holds gwAlwaysOk [⟨11, 42, .sell, 1/20, 0, 0⟩] 42 .buy (3/100)
    (3/100) [⟨11, 3/100⟩] (by norm_num)
    (by norm_num +decide [_perform_order_netting, nettingLoop, close_position,
      _place_close_position_order, EPS, gwAlwaysOk, List.insertionSort,
      List.orderedInsert, Int.fract, abs_of_nonneg])

/-! ## C8: greedy ascending netting order -/

/-- C8: the netting loop processes the eligible opposite positions in
ascending `qty` order and closes each for `min(position.qty,
requestedQty - totalNetted)` until `|totalNetted - requestedQty| < EPS`
(second conjunct, the general step law); in particular, given opposite
positions of qty `[0.03, 0.01, 0.05]` and a requested netting qty of
`0.02`, the engine closes the `0.01` position (id 12) in full, then
`0.01` of the `0.03` position (id 11), and never touches the `0.05`
position (id 13) — first conjunct. -/
theorem netting_greedy_ascending :
    (_perform_order_netting gwAlwaysOk
        [⟨11, 42, .sell, 3/100, 0, 0⟩, ⟨12, 42, .sell, 1/100, 0, 0⟩,
          ⟨13, 42, .sell, 5/100, 0, 0⟩] 42 .buy (2/100)
      = (.ok (2/100), [⟨12, 1/100⟩, ⟨11, 1/100⟩])) ∧
    (∀ (gw : ℤ → ℚ → Bool) (q : ℚ) (p : Position) (rest : List Position) (total : ℚ),
      p.stopLossId = 0 → p.takeProfitId = 0 → p.id ≠ 0 →
      nettingLoop gw q (p :: rest) total =
        if |total + min p.qty (q - total) - q| < EPS then
          (.ok (total + min p.qty (q - total)), [⟨p.id, min p.qty (q - total)⟩])
        else ((nettingLoop gw q rest (total + min p.qty (q - total))).1,
          ⟨p.id, min p.qty (q - total)⟩ ::
            (nettingLoop gw q rest (total + min p.qty (q - total))).2)) :=
  ⟨by norm_num +decide [_perform_order_netting, nettingLoop, close_position,
      _place_close_position_order, EPS, gwAlwaysOk, List.insertionSort,
      List.orderedInsert, Int.fract, abs_of_nonneg],
   fun gw q p rest total h1 h2 hid => nettingLoop_step gw q p rest total h1 h2 hid⟩

/-- Witness for the general step law of C8 at a concrete eligible
position: one sell of qty `0.05`, requested `0.03`, closed for `0.03`
and stopped. -/
theorem netting_greedy_ascending_witness :
    nettingLoop gwAlwaysOk (3/100) [⟨11, 42, .sell, 1/20, 0, 0⟩] 0
      = (.ok (3/100), [⟨11, 3/100⟩]) := by
  rw [netting_greedy_ascending.2 gwAlwaysOk (3/100) ⟨11, 42, .sell, 1/20, 0, 0⟩ [] 0
    rfl rfl (by norm_num)]
  norm_num [EPS, abs_of_nonneg]

/-! ## C10: positivity of netted closes -/

/-- C10 counterexample: with a single eligible opposite position of
strictly positive qty `0.05` and a requested netting quantity of `0`,
the first loop iteration runs with no prior stop-condition check, so the
netting loop issues a close of quantity `0` on position 11 — which the
Gateway interprets as a *full* close.  This refutes the claim that the
remaining quantity entering each iteration is at least `EPS` and that
netting never issues a zero-quantity close. -/
theorem netting_zero_request_issues_zero_close :
    (0:ℚ) < (⟨11, 42, .sell, 1/20, 0, 0⟩ : Position).qty ∧
    _perform_order_netting gwAlwaysOk [⟨11, 42, .sell, 1/20, 0, 0⟩] 42 .buy 0
      = (.ok 0, [⟨11, 0⟩]) := by
  constructor
  · norm_num
  · norm_num +decide [_perform_order_netting, nettingLoop, close_position,
      _place_close_position_order, EPS, gwAlwaysOk, List.insertionSort,
      List.orderedInsert, Int.fract, abs_of_nonneg]

/-- C10 amended: whenever the requested netting quantity is strictly
positive and every open position has strictly positive qty, every close
operation issued by the netting loop has a strictly positive quantity —
netting never issues a quantity-`0` close (which the Gateway would
interpret as a full close). -/
theorem netting_positive_request_closes_positive (gw : ℤ → ℚ → Bool)
    (all_positions : List Position) (instrument_id : ℤ) (side : Side) (quantity : ℚ)
    (hq : 0 < quantity) (hpos : ∀ p ∈ all_positions, 0 < p.qty) :
    ∀ op ∈ (_perform_order_netting gw all_positions instrument_id side quantity).2,
      0 < op.qty := by
  intro op hop
  simp only [_perform_order_netting] at hop
  refine nettingLoop_pos gw quantity _ 0 (by simpa using hq) ?_ op hop
  intro p hp
  exact hpos p (List.mem_filter.mp ((List.perm_insertionSort _ _).mem_iff.mp hp)).1

/-- Witness for the amended C10: the close issued when netting `0.03`
against a `0.05` position has positive quantity. -/
theorem netting_positive_request_closes_positive_witness :
    0 < (⟨11, (3:ℚ)/100⟩ : CloseOp).qty :=
  netting_positive_request_closes_positive gwAlwaysOk [⟨11, 42, .sell, 1/20, 0, 0⟩]
    42 .buy (3/100) (by norm_num) (by intro p hp; fin_cases hp; norm_num)
    ⟨11, 3/100⟩
    (by norm_num +decide [_perform_order_netting, nettingLoop, close_position,
      _place_close_position_order, EPS, gwAlwaysOk, List.insertionSort,
      List.orderedInsert, Int.fract, abs_of_nonneg])

/-! ## C5: quantity normalization in create_order -/

/-- C5 counterexample: `create_order` with the negative quantity `-0.05`
on a plain market order does *not* flip the side or take the absolute
value, performs no flooring and no minimum-lot-size suppression: the
request body is submitted with `qty = -0.05` and `side = buy` unchanged.
This refutes the claimed quantity normalization. -/
theorem create_order_negative_qty_passthrough :
    (-(1:ℚ)/20 < 0) ∧
    create_order gwAlwaysOk [] 1 (-(1/20)) .buy none .market none false
      none none none none none none false
      = (.ok (some ⟨none, -(1/20), .buy, .IOC, .market,
          none, none, none, none, none, none⟩), []) := by
  constructor
  · norm_num
  · norm_num +decide [create_order, create_order_after_validity, pyTruthyQ, pyTruthyStr]

/-- C5 amended: `create_order` applies no quantity normalization.  On
the direct path (no netting) a valid market order is submitted with the
caller's quantity and side completely unchanged — no negative-flip, no
flooring to a precision, no minimum-lot-size refusal (first conjunct).
Only on the position-netting path, when the post-netting remainder
`quantity - totalNetted` falls below the minimum lot size `0.01`, is the
order suppressed with a null order id rather than an error (second
conjunct). -/
theorem create_order_no_quantity_normalization :
    (∀ (gw : ℤ → ℚ → Bool) (all_positions : List Position) (instrument_id : ℤ)
        (quantity : ℚ) (side : Side),
      create_order gw all_positions instrument_id quantity side none .market none false
        none none none none none none false
        = (.ok (some ⟨none, quantity, side, .IOC, .market,
            none, none, none, none, none, none⟩), [])) ∧
    (∀ (gw : ℤ → ℚ → Bool) (all_positions : List Position) (instrument_id : ℤ)
        (quantity : ℚ) (side : Side) (t : ℚ) (ops : List CloseOp),
      _perform_order_netting gw all_positions instrument_id side quantity = (.ok t, ops) →
      quantity - t < MIN_LOT_SIZE →
      create_order gw all_positions instrument_id quantity side none .market none true
        none none none none none none false
        = (.ok none, ops)) := by
  constructor
  · intro gw all_positions instrument_id quantity side
    norm_num +decide [create_order, create_order_after_validity, pyTruthyQ, pyTruthyStr]
  · intro gw all_positions instrument_id quantity side t ops h hlt
    simp only [create_order, create_order_after_validity, pyTruthyQ, pyTruthyStr, h]
    norm_num +decide [if_pos hlt]

/-- Witness for the amended C5, second conjunct: netting a `0.05` buy
against an unprotected `0.05` sell closes it in full and suppresses the
new order (`None`), with the single netting close as trace. -/
theorem create_order_no_quantity_normalization_witness :
    create_order gwAlwaysOk [⟨11, 42, .sell, 1/20, 0, 0⟩] 42 (1/20) .buy none .market
      none true none none none none none none false
      = (.ok none, [⟨11, 1/20⟩]) := by
  refine create_order_no_quantity_normalization.2 gwAlwaysOk
    [⟨11, 42, .sell, 1/20, 0, 0⟩] 42 (1/20) .buy (1/20) [⟨11, 1/20⟩] ?_ ?_
  · norm_num +decide [_perform_order_netting, nettingLoop, close_position,
      _place_close_position_order, EPS, gwAlwaysOk, List.insertionSort,
      List.orderedInsert, Int.fract, abs_of_nonneg]
  · norm_num [MIN_LOT_SIZE]

end TradeLocker
